import Mathlib

/-!
Shallow embedding of the graph-matching core of `src/graphs.py` (module
`molmod`/PyChem graph tools): the `OneToOne`/`Permutation` bijections, the
`Graph` class with its symmetry discovery, the recursive subgraph-match
search, and the `MatchFilter` classes.

Modelling conventions:
* Node and "thing" identifiers are natural numbers (the source treats them
  as opaque, hashable, totally ordered values; every concrete input in the
  repository's tests uses small integers).
* A Python dict is an association list with unique keys.  Where the source
  iterates over a dict (`iteritems`, `itervalues`, `for k in d`), we iterate
  the keys in increasing order: for CPython 2 dicts whose keys are small
  non-negative integers (the only keys these dicts ever receive here),
  hash(i) = i and iteration visits the keys in exactly that order.
* Python exceptions (KeyError from `d[k]`, IndexError from `pairs[0]`,
  ValueError from `list.remove`) are modelled with `Except PErr`; the
  recursive generator `yield_matches` additionally takes a fuel argument,
  and exhausting the fuel is a separate error that never occurs for the
  fuel values used in the concrete theorems below.
-/

namespace Molmod

/-- The Python exceptions the embedded code can raise, plus fuel exhaustion
of the embedding's recursion bound. -/
inductive PErr where
  | keyError
  | indexError
  | valueError
  | fuelOut
deriving Repr, DecidableEq

deriving instance DecidableEq for Except

/-- Dict lookup `d.get(k)`: first binding of key `k` (keys are unique). -/
def lookup? {β : Type} (d : List (Nat × β)) (k : Nat) : Option β :=
  (d.find? (fun p => p.1 == k)).map Prod.snd

/-- Dict assignment `d[k] = v`: replace the binding in place, or append. -/
def aset {β : Type} (d : List (Nat × β)) (k : Nat) (v : β) : List (Nat × β) :=
  match d with
  | [] => [(k, v)]
  | (k', v') :: rest => if k' = k then (k, v) :: rest else (k', v') :: aset rest k v

/-- Insert into a sorted list of naturals. -/
def insSorted (x : Nat) : List Nat → List Nat
  | [] => [x]
  | y :: ys => if x ≤ y then x :: y :: ys else y :: insSorted x ys

/-- Sort a list of naturals ascending (CPython 2 small-int dict key order). -/
def sortNat (l : List Nat) : List Nat := l.foldr insSorted []

/-- Insert a key-value pair into a list sorted by key. -/
def insSortedP {β : Type} (x : Nat × β) : List (Nat × β) → List (Nat × β)
  | [] => [x]
  | y :: ys => if x.1 ≤ y.1 then x :: y :: ys else y :: insSortedP x ys

/-- Sort an association list by key ascending (dict item iteration order). -/
def sortPairs {β : Type} (d : List (Nat × β)) : List (Nat × β) := d.foldr insSortedP []

/-- `class OneToOne`: a discrete bijection kept as a consistent pair of
forward and backward dictionaries (src/graphs.py lines 43-113). -/
structure OneToOne where
  forward : List (Nat × Nat)
  backward : List (Nat × Nat)
deriving Repr, DecidableEq

/-- `OneToOne()`: the empty bijection. -/
def OneToOne.empty : OneToOne := ⟨[], []⟩

/-- `len(self)` = `len(self.forward)`. -/
def OneToOne.size (m : OneToOne) : Nat := m.forward.length

/-- `__mul__` (lines 70-77): iterates `other.backward.iteritems()` binding the
items as `(source, mid)`, looks `mid` up in `self.forward` (KeyError — here
`none` — when absent) and records `source -> destination`.  Note that the
iterated pairs are (destination-of-other, source-of-other). -/
def OneToOne.mul (self other : OneToOne) : Option OneToOne :=
  (sortPairs other.backward).foldlM
    (fun (result : OneToOne) (it : Nat × Nat) =>
      match lookup? self.forward it.2 with
      | none => none
      | some destination =>
          some ⟨aset result.forward it.1 destination,
                aset result.backward destination it.1⟩)
    OneToOne.empty

/-- `add_relation` (lines 79-94): returns the success flag and the
(possibly extended) bijection. -/
def OneToOne.add_relation (m : OneToOne) (source destination : Nat) :
    Bool × OneToOne :=
  match lookup? m.forward source with
  | some d => if d = destination then (true, m) else (false, m)
  | none =>
      if (lookup? m.backward destination).isSome then (false, m)
      else (true, ⟨aset m.forward source destination,
                   aset m.backward destination source⟩)

/-- `inverse` (lines 108-113): swap the two tables. -/
def OneToOne.inverse (m : OneToOne) : OneToOne := ⟨m.backward, m.forward⟩

/-- Python dict equality of both tables (key sets and values, order
irrelevant): the sense in which two `OneToOne` values are "the same
bijection". -/
def OneToOne.eqv (a b : OneToOne) : Bool :=
  sortPairs a.forward == sortPairs b.forward &&
    sortPairs a.backward == sortPairs b.backward

/-- One step of the `while` loop of `Permutation.get_closed_cycles`
(lines 130-147).  `sources` is the remaining key list, `cur?` the
`current_source` (`none` encodes Python's `None`), `cycle` the
`current_cycle`, `acc` the `closed_cycles` accumulator.  `list.remove`
raises ValueError when the element is absent; `get_destination` raises
KeyError. -/
def removeFirst (x : Nat) : List Nat → Option (List Nat)
  | [] => none
  | y :: ys => if y = x then some ys else (removeFirst x ys).map (y :: ·)

def cyclesLoop (fwd : List (Nat × Nat)) :
    Nat → List Nat → Option Nat → List Nat → List (List Nat) →
    Except PErr (List (List Nat))
  | _, [], _, _, acc => .ok acc
  | 0, _ :: _, _, _, _ => .error .fuelOut
  | fuel + 1, s :: ss, cur?, cycle, acc =>
      let current := match cur? with
        | none => s
        | some c => c
      let cycle := match cur? with
        | none => [current]
        | some _ => cycle ++ [current]
      match removeFirst current (s :: ss) with
      | none => .error .valueError
      | some sources' =>
          match lookup? fwd current with
          | none => .error .keyError
          | some nxt =>
              if nxt = cycle.headD 0 then
                let acc := if cycle.length > 1 then acc ++ [cycle] else acc
                cyclesLoop fwd fuel sources' none [] acc
              else
                cyclesLoop fwd fuel sources' (some nxt) cycle acc

/-- `Permutation.get_closed_cycles` (lines 130-147): decompose the
permutation into its closed cycles, dropping fixed points.  The key list
`self.forward.keys()` is visited in increasing order (small-int dict). -/
def OneToOne.get_closed_cycles (m : OneToOne) : Except PErr (List (List Nat)) :=
  let sources := sortNat (m.forward.map Prod.fst)
  cyclesLoop m.forward sources.length sources none [] []

/-- `all_relations(list1, list2, worth_trying)` (lines 150-169): all ways of
pairing the head of `list1` with some element of `list2` (tried left to
right), recursing on the remainders; a pair is kept only if `worth` accepts
it.  The callers in `yield_matches` always pass a `worth_trying` function,
which here may raise (KeyError) and so returns in `Except`. -/
def all_relations (worth : Nat × Nat → Except PErr Bool) :
    List Nat → List Nat → Except PErr (List (List (Nat × Nat)))
  | [], _ => .ok [[]]
  | _ :: _, [] => .ok [[]]
  | a :: rest1, list2 =>
      (List.range list2.length).foldlM
        (fun acc index2 => do
          let pair := (a, list2.getD index2 0)
          let w ← worth pair
          if w then do
            let subs ← all_relations worth rest1
              (list2.take index2 ++ list2.drop (index2 + 1))
            pure (acc ++ subs.map (pair :: ·))
          else
            pure acc)
        []

/-- Loop of `Graph.len_cycle_prefix`, counting down a bound that starts at
the sequence length (each iteration drops the last element, so the bound
is never exhausted before the sequence is empty). -/
def lcp_go (cycles : List (List Nat)) : Nat → List Nat → Nat
  | _, [] => 0
  | 0, _ => 0
  | bound + 1, s =>
      if s ∈ cycles then s.length
      else lcp_go cycles bound s.dropLast

/-- `Graph.len_cycle_prefix` (lines 269-273): shrink the sequence from the
tail until it is one of the graph's cycles (or empty); return its length. -/
def len_cycle_pref (cycles : List (List Nat)) (s : List Nat) : Nat :=
  lcp_go cycles s.length s

/-- `relations_without_symmetric_images` (lines 348-382), the candidate
enumeration used when `no_duplicates` is set: the first `num_ordered`
sources (a known cycle prefix of `list1`) draw their images in a canonical
order — skipped candidates are dropped from the pool — while the remaining
sources enumerate freely as in `all_relations`. -/
def rwsi (cycles : List (List Nat)) (worth : Nat × Nat → Except PErr Bool) :
    List Nat → List Nat → Nat → Except PErr (List (List (Nat × Nat)))
  | [], _, _ => .ok [[]]
  | _ :: _, [], _ => .ok [[]]
  | a :: rest1, list2, num_ordered0 =>
      let num_ordered :=
        if num_ordered0 = 0 then len_cycle_pref cycles (a :: rest1)
        else num_ordered0
      let bound :=
        if num_ordered > 0 then list2.length - rest1.length else list2.length
      let new_num_ordered := if num_ordered > 0 then num_ordered - 1 else 0
      (List.range bound).foldlM
        (fun acc index2 => do
          let pair := (a, list2.getD index2 0)
          let w ← worth pair
          if w then do
            let sublist2 :=
              if num_ordered = 0 then
                list2.take index2 ++ list2.drop (index2 + 1)
              else
                list2.drop (index2 + 1)
            let subs ← rwsi cycles worth rest1 sublist2 new_num_ordered
            pure (acc ++ subs.map (pair :: ·))
          else
            pure acc)
        []

/-- `worth_trying` (lines 320-343), the a-priori pruning predicate closed
over the current match and the two adjacency maps. -/
def worth_trying (neighbours thing_neighbours : List (Nat × List Nat))
    (m : OneToOne) (allow_more : Bool) (r : Nat × Nat) : Except PErr Bool :=
  match lookup? m.forward r.1 with
  | some d => .ok (d == r.2)
  | none =>
      if (lookup? m.backward r.2).isSome then .ok false
      else
        match lookup? neighbours r.1, lookup? thing_neighbours r.2 with
        | some n1, some t1 =>
            if allow_more && decide (n1.length > t1.length) then .ok false
            else if !allow_more && decide (n1.length ≠ t1.length) then .ok false
            else .ok true
        | _, _ => .error .keyError

/-- `Graph.yield_matches` (lines 275-412), with the generator made into the
list of the matches it yields, in yield order.  `fuel` bounds the recursion
depth (each recursive call strictly grows the match in the source, so any
fuel beyond the node count is enough; running out is a distinct error). -/
def yield_matches (fuel : Nat) (neighbours : List (Nat × List Nat))
    (cycles : List (List Nat)) (allow_more no_duplicates : Bool)
    (node thing : Nat) (thing_neighbours : List (Nat × List Nat))
    (m : OneToOne) : Except PErr (List OneToOne) :=
  match fuel with
  | 0 => .error .fuelOut
  | fuel + 1 =>
      match lookup? neighbours node, lookup? thing_neighbours thing with
      | some nn, some tn =>
          if allow_more && decide (nn.length > tn.length) then .ok []
          else if !allow_more && decide (nn.length ≠ tn.length) then .ok []
          else
            match m.add_relation node thing with
            | (false, _) => .ok []
            | (true, m1) =>
                if m1.size = neighbours.length then .ok [m1]
                else do
                  let worth := worth_trying neighbours thing_neighbours m1 allow_more
                  let rsets ←
                    if no_duplicates then rwsi cycles worth nn tn 0
                    else all_relations worth nn tn
                  rsets.foldlM
                    (fun acc rset =>
                      if rset.isEmpty then pure acc
                      else do
                        let finals ← rset.foldlM
                          (fun formers pr =>
                            formers.foldlM
                              (fun news fm =>
                                if lookup? fm.forward pr.1 = some pr.2 then
                                  pure (news ++ [fm])
                                else do
                                  let ys ← yield_matches fuel neighbours cycles
                                    allow_more no_duplicates pr.1 pr.2
                                    thing_neighbours fm
                                  pure (news ++ ys))
                              [])
                          [m1]
                        pure (acc ++ finals))
                    []
      | _, _ => .error .keyError

/-- The helper `add_relation` local to `Graph.init_neighbours`
(lines 195-199): append `second` to `first`'s neighbour list, creating the
list when absent.  Note appending is unconditional, so repeated edges
append repeatedly. -/
def addNeighbour (nb : List (Nat × List Nat)) (first second : Nat) :
    List (Nat × List Nat) :=
  match lookup? nb first with
  | some l => aset nb first (l ++ [second])
  | none => nb ++ [(first, [second])]

/-- `Graph.init_neighbours` (lines 191-206): derive the adjacency map from
the edge list, both directions per pair. -/
def init_neighbours (pairs : List (Nat × Nat)) : List (Nat × List Nat) :=
  pairs.foldl (fun nb pr => addNeighbour (addNeighbour nb pr.1 pr.2) pr.2 pr.1) []

/-- The mutable state built up by `Graph.init_symmetries`: the
signature-keyed symmetry dict (association list in insertion order; the
claims only ever use it through its values and size) and the cycle list. -/
structure SymState where
  symmetries : List (List (List Nat) × OneToOne)
  cycles : List (List Nat)
deriving Repr, DecidableEq

/-- `add_symmetry` local to `init_symmetries` (lines 228-237): key the
permutation by its closed-cycle signature; first writer per signature wins;
record any new cycles. -/
def add_symmetry (st : SymState) (sym : OneToOne) :
    Except PErr (SymState × Bool) := do
  let cycles ← sym.get_closed_cycles
  if (st.symmetries.find? (fun p => p.1 == cycles)).isSome then
    pure (st, false)
  else
    pure ({ symmetries := st.symmetries ++ [(cycles, sym)],
            cycles := cycles.foldl
              (fun cs c => if c ∈ cs then cs else cs ++ [c]) st.cycles },
          true)

/-- `find_symmetries` local to `init_symmetries` (lines 239-243): run the
match search of the graph against itself seeded at
`(source, destination)` with `allow_more = False, no_duplicates = False`,
and record every yielded permutation and, if it was new, its inverse. -/
def find_symmetries (fuel : Nat) (neighbours : List (Nat × List Nat))
    (st : SymState) (source destination : Nat) : Except PErr SymState := do
  let ms ← yield_matches fuel neighbours st.cycles false false
    source destination neighbours OneToOne.empty
  ms.foldlM
    (fun st sym => do
      let (st1, added) ← add_symmetry st sym
      if added then do
        let (st2, _) ← add_symmetry st1 sym.inverse
        pure st2
      else
        pure st1)
    st

/-- `Graph.init_symmetries` (lines 209-251): seed with
`(initiator, initiator)`, then try every ordered key pair with
`source < destination`. -/
def init_symmetries (fuel : Nat) (neighbours : List (Nat × List Nat))
    (initiator : Nat) : Except PErr SymState := do
  let st1 ← find_symmetries fuel neighbours ⟨[], []⟩ initiator initiator
  let keys := sortNat (neighbours.map Prod.fst)
  keys.foldlM
    (fun st source =>
      keys.foldlM
        (fun st destination =>
          if source ≥ destination then pure st
          else find_symmetries fuel neighbours st source destination)
        st)
    st1

/-- `Graph.init_initiator_cycle` (lines 261-267): the first strictly-longest
cycle containing the initiator, defaulting to the singleton. -/
def init_initiator_cycle (cycles : List (List Nat)) (initiator : Nat) :
    List Nat :=
  cycles.foldl
    (fun best cycle =>
      if initiator ∈ cycle ∧ cycle.length > best.length then cycle else best)
    [initiator]

/-- `class Graph` (lines 172-189) after `__init__` has run. -/
structure Graph where
  pairs : List (Nat × Nat)
  neighbours : List (Nat × List Nat)
  initiator : Nat
  symmetries : List (List (List Nat) × OneToOne)
  cycles : List (List Nat)
  initiator_cycle : List Nat
deriving Repr, DecidableEq

/-- `Graph.__init__(pairs)` (lines 173-189): store the pairs, build the
adjacency map, take `pairs[0][0]` as initiator (IndexError on an empty
list), discover the symmetries, cache the initiator cycle. -/
def Graph.make (fuel : Nat) (pairs : List (Nat × Nat)) : Except PErr Graph := do
  let neighbours := init_neighbours pairs
  match pairs with
  | [] => .error .indexError
  | p0 :: _ => do
      let initiator := p0.1
      let st ← init_symmetries fuel neighbours initiator
      pure { pairs := pairs, neighbours := neighbours, initiator := initiator,
             symmetries := st.symmetries, cycles := st.cycles,
             initiator_cycle := init_initiator_cycle st.cycles initiator }

/-- `match.get_destination(source)` with its KeyError. -/
def getDest (m : OneToOne) (source : Nat) : Except PErr Nat :=
  match lookup? m.forward source with
  | some d => .ok d
  | none => .error .keyError

/-- `Graph.lowest_initiator(match)` (lines 414-420): the initiator's image
is the minimum image over the cached initiator cycle (`min` of an empty
list raises ValueError). -/
def lowest_initiator (g : Graph) (m : OneToOne) : Except PErr Bool := do
  let d ← getDest m g.initiator
  let ds ← g.initiator_cycle.mapM (getDest m)
  match ds with
  | [] => .error .valueError
  | x :: xs => pure (d == xs.foldl Nat.min x)

/-- `Graph.yield_matching_subgraphs(thing_neighbours)` (lines 422-435): for
every thing (dict key order: increasing), all matches from the search
seeded at `(initiator, thing)` with the defaults
`allow_more = True, no_duplicates = True`, kept only when
`lowest_initiator` holds. -/
def yield_matching_subgraphs (fuel : Nat) (g : Graph)
    (thing_neighbours : List (Nat × List Nat)) :
    Except PErr (List OneToOne) :=
  (sortNat (thing_neighbours.map Prod.fst)).foldlM
    (fun acc thing => do
      let ms ← yield_matches fuel g.neighbours g.cycles true true
        g.initiator thing thing_neighbours OneToOne.empty
      let kept ← ms.foldlM
        (fun ks m => do
          let b ← lowest_initiator g m
          pure (if b then ks ++ [m] else ks))
        []
      pure (acc ++ kept))
    []

/-- The same enumeration as `yield_matching_subgraphs` (lines 431-432) but
without the `lowest_initiator` filter: the raw stream of complete matches
the search produces. -/
def raw_matching_subgraphs (fuel : Nat) (g : Graph)
    (thing_neighbours : List (Nat × List Nat)) :
    Except PErr (List OneToOne) :=
  (sortNat (thing_neighbours.map Prod.fst)).foldlM
    (fun acc thing => do
      let ms ← yield_matches fuel g.neighbours g.cycles true true
        g.initiator thing thing_neighbours OneToOne.empty
      pure (acc ++ ms))
    []

/-- `frozenset([a, b])`: an unordered pair, normalised. -/
def upair (a b : Nat) : Nat × Nat := (Nat.min a b, Nat.max a b)

/-- Python truthiness of a `None`-or-bool value (`if not x:`). -/
def truthy : Option Bool → Bool
  | none => false
  | some b => b

/-- Lookup in a criteria table keyed by unordered pairs. -/
def lookupU {β : Type} (d : List ((Nat × Nat) × β)) (k : Nat × Nat) : Option β :=
  (d.find? (fun p => p.1 == k)).map Prod.snd

/-- `MatchFilterParameterized.check_thing` (lines 505-509): when `node` has
an entry the criterion is evaluated but its result is dropped and the
Python function falls through, returning `None`; otherwise `True`. -/
def MFP.check_thing (thing_criteria : List (Nat × (Nat → Bool)))
    (node thing : Nat) : Option Bool :=
  match lookup? thing_criteria node with
  | some criterion =>
      let _r := criterion thing
      none
  | none => some true

/-- `MatchFilterParameterized.check_relation` (lines 511-515): same shape,
keyed by the unordered node pair; `things` is taken here as an indexable
pair (`things[0]`, `things[1]`).  (In the `parse` call path the source
actually passes a frozenset, which does not support indexing, so an entry
would raise TypeError there; the claims only exercise node criteria.) -/
def MFP.check_relation (relation_criteria : List ((Nat × Nat) × (Nat → Nat → Bool)))
    (nodes : Nat × Nat) (things : Nat × Nat) : Option Bool :=
  match lookupU relation_criteria nodes with
  | some criterion =>
      let _r := criterion things.1 things.2
      none
  | none => some true

/-- Inner loop of `check_match` local to `MatchFilter.parse`
(lines 468-476): check the relation of `node` against each of its
neighbours, stopping at the first failure; `d` is
`transformed_match.get_destination(node)`. -/
def check_nbs (cr : Nat × Nat → Nat × Nat → Bool) (tm : OneToOne)
    (node d : Nat) : List Nat → Except PErr Bool
  | [] => .ok true
  | nb :: rest =>
      match getDest tm nb with
      | .error e => .error e
      | .ok dnb =>
          if cr (upair node nb) (upair d dnb) then check_nbs cr tm node d rest
          else .ok false

/-- Outer loop of `check_match` (lines 464-477): iterate the subgraph's
adjacency items (increasing key order), checking `check_thing` on the node
and `check_relation` on each incident edge. -/
def check_nodes (ct : Nat → Nat → Bool) (cr : Nat × Nat → Nat × Nat → Bool)
    (tm : OneToOne) : List (Nat × List Nat) → Except PErr Bool
  | [] => .ok true
  | (node, nbs) :: rest =>
      match getDest tm node with
      | .error e => .error e
      | .ok d =>
          if ct node d then
            match check_nbs cr tm node d nbs with
            | .error e => .error e
            | .ok ok =>
                if ok then check_nodes ct cr tm rest else .ok false
          else .ok false

/-- `check_match` local to `MatchFilter.parse` (lines 458-477). -/
def check_match (neighbours : List (Nat × List Nat)) (ct : Nat → Nat → Bool)
    (cr : Nat × Nat → Nat × Nat → Bool) (tm : OneToOne) : Except PErr Bool :=
  check_nodes ct cr tm (sortPairs neighbours)

/-- The loop of `MatchFilter.parse` (lines 479-484) over the symmetry
values: transform the match by each symmetry in turn and return the first
transformed match that satisfies `check_match`. -/
def parse_go (neighbours : List (Nat × List Nat)) (ct : Nat → Nat → Bool)
    (cr : Nat × Nat → Nat × Nat → Bool) (m : OneToOne) :
    List OneToOne → Except PErr (Option OneToOne)
  | [] => .ok none
  | sym :: rest =>
      match OneToOne.mul m sym with
      | none => .error .keyError
      | some tm =>
          match check_match neighbours ct cr tm with
          | .error e => .error e
          | .ok ok =>
              if ok then .ok (some tm) else parse_go neighbours ct cr m rest

/-- `MatchFilter.parse(match)` (lines 453-484), with the two abstract
check methods passed as functions (their Python truthiness applied). -/
def MatchFilter.parse (g : Graph) (ct : Nat → Nat → Bool)
    (cr : Nat × Nat → Nat × Nat → Bool) (m : OneToOne) :
    Except PErr (Option OneToOne) :=
  parse_go g.neighbours ct cr m (g.symmetries.map Prod.snd)

/-- Pure mirror of `check_match`: the transformed match satisfies every
node check and every incident-edge check (a missing destination counts as
failure; `check_match` raises there instead). -/
def match_passes_nbs (cr : Nat × Nat → Nat × Nat → Bool) (tm : OneToOne)
    (node d : Nat) : List Nat → Bool
  | [] => true
  | nb :: rest =>
      match lookup? tm.forward nb with
      | some dnb => cr (upair node nb) (upair d dnb) &&
          match_passes_nbs cr tm node d rest
      | none => false

def match_passes_nodes (ct : Nat → Nat → Bool)
    (cr : Nat × Nat → Nat × Nat → Bool) (tm : OneToOne) :
    List (Nat × List Nat) → Bool
  | [] => true
  | (node, nbs) :: rest =>
      match lookup? tm.forward node with
      | some d => ct node d && match_passes_nbs cr tm node d nbs &&
          match_passes_nodes ct cr tm rest
      | none => false

def match_passes (neighbours : List (Nat × List Nat)) (ct : Nat → Nat → Bool)
    (cr : Nat × Nat → Nat × Nat → Bool) (tm : OneToOne) : Bool :=
  match_passes_nodes ct cr tm (sortPairs neighbours)

/-- Modelled from the spec's words for claim C2 only (`compose_after`,
spec §4.1): "returns the bijection equal to 'apply `other` then apply
`self`' by mapping each source of `other` through `self`'s forward table;
requires every destination of `other` to be a source of `self`, else fails
with DomainError" — i.e. source `s` of `other` maps to
`self.forward[other.forward[s]]`.  For comparison with `OneToOne.mul`,
which embeds the code. -/
def compose_after_claim (self other : OneToOne) : Option OneToOne :=
  (sortPairs other.forward).foldlM
    (fun (result : OneToOne) (it : Nat × Nat) =>
      match lookup? self.forward it.2 with
      | none => none
      | some destination =>
          some ⟨aset result.forward it.1 destination,
                aset result.backward destination it.1⟩)
    OneToOne.empty

/-! ### Concrete pattern graphs used by the claims

`p3pairs` is the spec's Scenario A (path on 0-1-2), `k3pairs` its
Scenario B (triangle), and `g0pairs` a disconnected but constructible
pattern: one edge 0-1 plus a triangle 2-3-4. -/

def p3pairs : List (Nat × Nat) := [(0, 1), (1, 2)]

def k3pairs : List (Nat × Nat) := [(0, 1), (1, 2), (2, 0)]

def g0pairs : List (Nat × Nat) := [(0, 1), (2, 3), (3, 4), (2, 4)]

/-- Extract the graph from a successful construction (the fallback is never
reached for the pair lists above, as the construction theorems show). -/
def theGraph (fuel : Nat) (pairs : List (Nat × Nat)) : Graph :=
  match Graph.make fuel pairs with
  | .ok g => g
  | .error _ => ⟨pairs, [], 0, [], [], []⟩

def gP3 : Graph := theGraph 64 p3pairs

def gK3 : Graph := theGraph 64 k3pairs

def gG0 : Graph := theGraph 64 g0pairs

/-- The identity match/permutation of the path pattern's three nodes. -/
def idP3 : OneToOne := ⟨[(0, 0), (1, 1), (2, 2)], [(0, 0), (1, 1), (2, 2)]⟩

/-- The identity permutation of the triangle's three nodes (also the value
stored in `gK3.symmetries` under the empty signature). -/
def idK3 : OneToOne := ⟨[(0, 0), (1, 1), (2, 2)], [(0, 0), (1, 1), (2, 2)]⟩

/-- The rotation symmetry 0→1→2→0 of the triangle, as stored in
`gK3.symmetries` under the signature `[[0, 1, 2]]`. -/
def rhoK3 : OneToOne := ⟨[(0, 1), (1, 2), (2, 0)], [(1, 0), (2, 1), (0, 2)]⟩

/-- The identity permutation of all five nodes of `g0pairs`. -/
def fullIdG0 : OneToOne :=
  ⟨[(0, 0), (1, 1), (2, 2), (3, 3), (4, 4)],
   [(0, 0), (1, 1), (2, 2), (3, 3), (4, 4)]⟩

/-! ### Theorems for the claims -/

/-- Claim C7: `add_relation` is a no-op success when the exact relation is
already present, extends both tables and succeeds when neither endpoint is
mapped, and fails leaving both tables unchanged when the source is mapped
to a different destination or the destination is already claimed. -/
theorem add_relation_cases (m : OneToOne) (source destination : Nat) :
    (lookup? m.forward source = some destination →
      m.add_relation source destination = (true, m)) ∧
    (∀ d, lookup? m.forward source = some d → d ≠ destination →
      m.add_relation source destination = (false, m)) ∧
    (lookup? m.forward source = none →
      (lookup? m.backward destination).isSome = true →
      m.add_relation source destination = (false, m)) ∧
    (lookup? m.forward source = none →
      lookup? m.backward destination = none →
      m.add_relation source destination =
        (true, ⟨aset m.forward source destination,
                aset m.backward destination source⟩)) := by
  refine ⟨?_, ?_, ?_, ?_⟩
  · intro h
    simp [OneToOne.add_relation, h]
  · intro d h hne
    simp [OneToOne.add_relation, h, hne]
  · intro h hb
    simp [OneToOne.add_relation, h, hb]
  · intro h hb
    simp [OneToOne.add_relation, h, hb]

/-- Witness for C7: the four cases of `add_relation` at the concrete
bijection 0 -> 1. -/
theorem add_relation_cases_witness :
    (OneToOne.add_relation ⟨[(0, 1)], [(1, 0)]⟩ 0 1 =
      (true, ⟨[(0, 1)], [(1, 0)]⟩)) ∧
    (OneToOne.add_relation ⟨[(0, 1)], [(1, 0)]⟩ 0 2 =
      (false, ⟨[(0, 1)], [(1, 0)]⟩)) ∧
    (OneToOne.add_relation ⟨[(0, 1)], [(1, 0)]⟩ 2 1 =
      (false, ⟨[(0, 1)], [(1, 0)]⟩)) ∧
    (OneToOne.add_relation ⟨[(0, 1)], [(1, 0)]⟩ 2 3 =
      (true, ⟨[(0, 1), (2, 3)], [(1, 0), (3, 2)]⟩)) :=
  ⟨(add_relation_cases ⟨[(0, 1)], [(1, 0)]⟩ 0 1).1 rfl,
   (add_relation_cases ⟨[(0, 1)], [(1, 0)]⟩ 0 2).2.1 1 rfl (by decide),
   (add_relation_cases ⟨[(0, 1)], [(1, 0)]⟩ 2 1).2.2.1 rfl rfl,
   (add_relation_cases ⟨[(0, 1)], [(1, 0)]⟩ 2 3).2.2.2 rfl rfl⟩

/-- Claim C2: the `*` operator does not compute "apply `other` then apply
`self`".  On the 3-cycle `rhoK3`, the code's product `rhoK3 * rhoK3` is
the identity (it computes `self` after `other`'s *inverse*: the loop reads
`other.backward`), while the claimed composition is the rotation
0→2→1→0. -/
theorem mul_is_not_claimed_composition :
    OneToOne.mul rhoK3 rhoK3 = some idK3 ∧
    compose_after_claim rhoK3 rhoK3 =
      some ⟨[(0, 2), (1, 0), (2, 1)], [(2, 0), (0, 1), (1, 2)]⟩ ∧
    OneToOne.mul rhoK3 rhoK3 ≠ compose_after_claim rhoK3 rhoK3 :=
  ⟨rfl, rfl, by decide⟩

/-- Claim C3: in the triangle's symmetry group, composing with the stored
identity is neutral on the right (`p * identity = p`) but NOT on the left:
`identity * rhoK3` evaluates to the inverse rotation, which differs from
`rhoK3` (in forward/backward-table equality). -/
theorem identity_mul_not_neutral :
    Graph.make 64 k3pairs = .ok gK3 ∧
    idK3 ∈ gK3.symmetries.map Prod.snd ∧
    rhoK3 ∈ gK3.symmetries.map Prod.snd ∧
    OneToOne.mul rhoK3 idK3 = some rhoK3 ∧
    OneToOne.mul idK3 rhoK3 =
      some ⟨[(0, 2), (1, 0), (2, 1)], [(2, 0), (0, 1), (1, 2)]⟩ ∧
    OneToOne.eqv ⟨[(0, 2), (1, 0), (2, 1)], [(2, 0), (0, 1), (1, 2)]⟩
      rhoK3.inverse = true ∧
    OneToOne.eqv ⟨[(0, 2), (1, 0), (2, 1)], [(2, 0), (0, 1), (1, 2)]⟩
      rhoK3 = false :=
  ⟨rfl, by decide, by decide, rfl, rfl, rfl, rfl⟩

/-- Counterexample for C4: the disconnected pattern `g0pairs` (an edge
plus a triangle) constructs successfully, yet no value of its symmetry
table equals the identity permutation of its five nodes — the search only
ever completes within one component, so the empty-signature slot holds the
identity of the initiator's component only. -/
theorem identity_absent_for_disconnected :
    Graph.make 64 g0pairs = .ok gG0 ∧
    sortNat (gG0.neighbours.map Prod.fst) = [0, 1, 2, 3, 4] ∧
    (gG0.symmetries.map Prod.snd).all
      (fun q => !(OneToOne.eqv q fullIdG0)) = true ∧
    lookup? (gG0.symmetries.map (fun p => (0, p.2))) 0 ≠ none :=
  ⟨rfl, rfl, rfl, by decide⟩

/-- Claim C4 amended: for the connected patterns P3 and K3 the identity
permutation of all nodes is stored in `symmetries`, and on all three
concrete patterns (including the disconnected `g0pairs`) every stored
permutation's inverse is stored, up to table equality `eqv`. -/
theorem identity_and_inverse_closure :
    Graph.make 64 p3pairs = .ok gP3 ∧
    Graph.make 64 k3pairs = .ok gK3 ∧
    idP3 ∈ gP3.symmetries.map Prod.snd ∧
    idK3 ∈ gK3.symmetries.map Prod.snd ∧
    (gP3.symmetries.map Prod.snd).all
      (fun p => (gP3.symmetries.map Prod.snd).any
        (fun q => OneToOne.eqv q p.inverse)) = true ∧
    (gK3.symmetries.map Prod.snd).all
      (fun p => (gK3.symmetries.map Prod.snd).any
        (fun q => OneToOne.eqv q p.inverse)) = true ∧
    (gG0.symmetries.map Prod.snd).all
      (fun p => (gG0.symmetries.map Prod.snd).any
        (fun q => OneToOne.eqv q p.inverse)) = true :=
  ⟨rfl, rfl, by decide, by decide, rfl, rfl, rfl⟩

/-- Claim C5 amended: constructing a `Graph` from an empty edge list fails with
IndexError — `self.pairs[0][0]` subscripts an empty list — not ValueError,
and no graph value is produced (the result is an error, for every fuel). -/
theorem make_empty_is_index_error (fuel : Nat) :
    Graph.make fuel [] = .error .indexError := rfl

/-- Counterexample for C5: the failure on the empty edge list is
IndexError, which is not ValueError. -/
theorem make_empty_not_value_error :
    Graph.make 64 [] = .error .indexError ∧
    (Except.error .indexError : Except PErr Graph) ≠ .error .valueError :=
  ⟨rfl, by decide⟩

/-- Counterexample for C9: appending a duplicate of an edge already in the
list changes the derived adjacency map — each occurrence appends the
endpoints again, so the graph built from [(0,1),(0,1)] has neighbour lists
[1,1] and [0,0] where the graph built from [(0,1)] has [1] and [0]. -/
theorem duplicate_edge_changes_adjacency :
    (Graph.make 64 [(0, 1), (0, 1)]).map Graph.neighbours =
      .ok [(0, [1, 1]), (1, [0, 0])] ∧
    (Graph.make 64 [(0, 1)]).map Graph.neighbours =
      .ok [(0, [1]), (1, [0])] ∧
    (Graph.make 64 [(0, 1), (0, 1)]).map Graph.neighbours ≠
      (Graph.make 64 [(0, 1)]).map Graph.neighbours :=
  ⟨rfl, rfl, by decide⟩

/-- Claim C9 amended: appending an edge (duplicate or not) to the construction
list yields the adjacency of the original list extended by one more
occurrence of each endpoint in the other endpoint's neighbour list —
adjacency is edge-counted, not deduplicated. -/
theorem init_neighbours_append (pairs : List (Nat × Nat)) (a b : Nat) :
    init_neighbours (pairs ++ [(a, b)]) =
      addNeighbour (addNeighbour (init_neighbours pairs) a b) b a := by
  simp [init_neighbours, List.foldl_append]

/-- Claim C10: `MatchFilterParameterized.check_thing` returns `None` (falsy) for
every node with an entry in `thing_criteria`, whatever the criterion
returns, and `True` for every node without one; `check_relation` does the
same over `relation_criteria`. -/
theorem check_criteria_fall_through
    (tc : List (Nat × (Nat → Bool)))
    (rc : List ((Nat × Nat) × (Nat → Nat → Bool)))
    (node thing : Nat) (nodes things : Nat × Nat) :
    ((lookup? tc node).isSome = true →
      MFP.check_thing tc node thing = none) ∧
    (lookup? tc node = none →
      MFP.check_thing tc node thing = some true) ∧
    ((lookupU rc nodes).isSome = true →
      MFP.check_relation rc nodes things = none) ∧
    (lookupU rc nodes = none →
      MFP.check_relation rc nodes things = some true) := by
  refine ⟨?_, ?_, ?_, ?_⟩
  · intro h
    rcases hl : lookup? tc node with _ | c
    · rw [hl] at h
      simp at h
    · simp [MFP.check_thing, hl]
  · intro h
    simp [MFP.check_thing, h]
  · intro h
    rcases hl : lookupU rc nodes with _ | c
    · rw [hl] at h
      simp at h
    · simp [MFP.check_relation, hl]
  · intro h
    simp [MFP.check_relation, h]

/-- Witness for C10: a table with a criterion on node 0 (and on the pair
{0,1}) yields `None` there — even though the criterion returns `True` —
and `True` elsewhere. -/
theorem check_criteria_fall_through_witness :
    MFP.check_thing [(0, fun _ => true)] 0 7 = none ∧
    MFP.check_thing [(0, fun _ => true)] 1 7 = some true ∧
    MFP.check_relation [((0, 1), fun _ _ => true)] (0, 1) (5, 6) = none ∧
    MFP.check_relation [((0, 1), fun _ _ => true)] (1, 2) (5, 6) = some true :=
  ⟨(check_criteria_fall_through [(0, fun _ => true)] [] 0 7 (0, 0) (0, 0)).1 rfl,
   (check_criteria_fall_through [(0, fun _ => true)] [] 1 7 (0, 0) (0, 0)).2.1 rfl,
   (check_criteria_fall_through [] [((0, 1), fun _ _ => true)] 0 0 (0, 1) (5, 6)).2.2.1 rfl,
   (check_criteria_fall_through [] [((0, 1), fun _ _ => true)] 0 0 (1, 2) (5, 6)).2.2.2 rfl⟩

/-- Counterexample for C1: matching the path pattern P3 against its own
adjacency yields a single raw complete match before the
`lowest_initiator` filter, strictly fewer than its 2 symmetries — the
duplicate-suppressing enumeration already removes symmetric images. -/
theorem self_match_count_below_symmetries :
    Graph.make 64 p3pairs = .ok gP3 ∧
    (raw_matching_subgraphs 64 gP3 gP3.neighbours).map List.length = .ok 1 ∧
    gP3.symmetries.length = 2 ∧
    (raw_matching_subgraphs 64 gP3 gP3.neighbours).map List.length ≠
      .ok gP3.symmetries.length :=
  ⟨rfl, rfl, rfl, by decide⟩

/-- Claim C1 amended: self-matching yields at most — and possibly strictly fewer
than — `|symmetries|` raw matches (1 of 2 on P3, 2 of 6 on K3), and after
the `lowest_initiator` filter exactly one match survives, the identity
mapping of the pattern's nodes. -/
theorem self_match_filter_keeps_identity :
    raw_matching_subgraphs 64 gP3 gP3.neighbours = .ok [idP3] ∧
    yield_matching_subgraphs 64 gP3 gP3.neighbours = .ok [idP3] ∧
    gP3.symmetries.length = 2 ∧
    (raw_matching_subgraphs 64 gK3 gK3.neighbours).map List.length = .ok 2 ∧
    yield_matching_subgraphs 64 gK3 gK3.neighbours = .ok [idK3] ∧
    gK3.symmetries.length = 6 :=
  ⟨rfl, rfl, rfl, rfl, rfl, rfl⟩

/-- Helper for C6: the symmetry transform `m * sym` is defined and
`check_match` evaluates without raising on it. -/
def composes_and_checks (neighbours : List (Nat × List Nat))
    (ct : Nat → Nat → Bool) (cr : Nat × Nat → Nat × Nat → Bool)
    (m sym : OneToOne) : Bool :=
  match OneToOne.mul m sym with
  | some tm =>
      match check_match neighbours ct cr tm with
      | .ok _ => true
      | .error _ => false
  | none => false

/-- When the neighbour check terminates normally its boolean agrees with
the pure mirror `match_passes_nbs`. -/
theorem check_nbs_ok_eq (cr : Nat × Nat → Nat × Nat → Bool) (tm : OneToOne)
    (node d : Nat) :
    ∀ (l : List Nat) (b : Bool), check_nbs cr tm node d l = .ok b →
      b = match_passes_nbs cr tm node d l := by
  intro l
  induction l with
  | nil =>
      intro b h
      simp only [check_nbs, Except.ok.injEq] at h
      simp [match_passes_nbs, ← h]
  | cons nb rest ih =>
      intro b h
      rcases hl : lookup? tm.forward nb with _ | dnb
      · simp only [check_nbs, getDest, hl] at h
        exact Except.noConfusion h
      · simp only [check_nbs, getDest, hl] at h
        by_cases hc : cr (upair node nb) (upair d dnb) = true
        · rw [if_pos hc] at h
          simp only [match_passes_nbs, hl, hc, Bool.true_and]
          exact ih b h
        · rw [if_neg hc] at h
          simp only [Except.ok.injEq] at h
          simp only [match_passes_nbs, hl]
          simp only [Bool.not_eq_true] at hc
          simp [hc, ← h]

/-- When the node loop of `check_match` terminates normally its boolean
agrees with the pure mirror `match_passes_nodes`. -/
theorem check_nodes_ok_eq (ct : Nat → Nat → Bool)
    (cr : Nat × Nat → Nat × Nat → Bool) (tm : OneToOne) :
    ∀ (l : List (Nat × List Nat)) (b : Bool), check_nodes ct cr tm l = .ok b →
      b = match_passes_nodes ct cr tm l := by
  intro l
  induction l with
  | nil =>
      intro b h
      simp only [check_nodes, Except.ok.injEq] at h
      simp [match_passes_nodes, ← h]
  | cons p rest ih =>
      intro b h
      obtain ⟨node, nbs⟩ := p
      rcases hl : lookup? tm.forward node with _ | d
      · simp only [check_nodes, getDest, hl] at h
        exact Except.noConfusion h
      · simp only [check_nodes, getDest, hl] at h
        by_cases hct : ct node d = true
        · rw [if_pos hct] at h
          rcases hnb : check_nbs cr tm node d nbs with e | bb
          · rw [hnb] at h
            dsimp only at h
            exact Except.noConfusion h
          · rw [hnb] at h
            dsimp only at h
            have hbb := check_nbs_ok_eq cr tm node d nbs bb hnb
            by_cases hbbt : bb = true
            · rw [if_pos hbbt] at h
              have hrest := ih b h
              simp only [match_passes_nodes, hl, hct, ← hbb, hbbt,
                Bool.true_and, hrest]
            · rw [if_neg hbbt] at h
              simp only [Except.ok.injEq] at h
              simp only [Bool.not_eq_true] at hbbt
              simp [match_passes_nodes, hl, hct, ← hbb, hbbt, ← h]
        · rw [if_neg hct] at h
          simp only [Except.ok.injEq] at h
          simp only [Bool.not_eq_true] at hct
          simp [match_passes_nodes, hl, hct, ← h]

/-- When `check_match` terminates normally its boolean agrees with the
pure mirror `match_passes`. -/
theorem check_match_ok_eq (neighbours : List (Nat × List Nat))
    (ct : Nat → Nat → Bool) (cr : Nat × Nat → Nat × Nat → Bool)
    (tm : OneToOne) (b : Bool) (h : check_match neighbours ct cr tm = .ok b) :
    b = match_passes neighbours ct cr tm :=
  check_nodes_ok_eq ct cr tm (sortPairs neighbours) b h

/-- Claim C6: `parse` walks the pattern's symmetry values in order, transforms
the match by each, and returns the first transformed match on which every
node check and every incident-edge check passes — `none` when no symmetry
transform satisfies all checks (so every transform is tried before giving
up).  The hypothesis says each transform is defined and its checks
evaluate without raising, which holds in every state the source reaches
`parse` in (complete match, closed symmetries). -/
theorem parse_returns_first_passing (g : Graph) (ct : Nat → Nat → Bool)
    (cr : Nat × Nat → Nat × Nat → Bool) (m : OneToOne)
    (h : ∀ sym ∈ g.symmetries.map Prod.snd,
      composes_and_checks g.neighbours ct cr m sym = true) :
    MatchFilter.parse g ct cr m =
      .ok (((g.symmetries.map Prod.snd).filterMap (OneToOne.mul m)).find?
        (match_passes g.neighbours ct cr)) := by
  rw [MatchFilter.parse]
  revert h
  induction g.symmetries.map Prod.snd with
  | nil => intro _; rfl
  | cons sym rest ih =>
      intro hall
      have hhead := hall sym (List.mem_cons_self _ _)
      have hrest : ∀ s ∈ rest,
          composes_and_checks g.neighbours ct cr m s = true :=
        fun s hs => hall s (List.mem_cons_of_mem _ hs)
      rw [parse_go]
      rcases hm : OneToOne.mul m sym with _ | tm
      · rw [composes_and_checks, hm] at hhead
        simp at hhead
      · rw [composes_and_checks, hm] at hhead
        dsimp only at hhead
        rcases hc : check_match g.neighbours ct cr tm with e | b
        · rw [hc] at hhead
          simp at hhead
        · have hb := check_match_ok_eq g.neighbours ct cr tm b hc
          dsimp only
          rw [hc]
          dsimp only
          rw [List.filterMap_cons, hm]
          rw [List.find?]
          rw [← hb]
          cases b with
          | false => simpa using ih hrest
          | true => rfl

/-- Scenario D instance: a `MatchFilterParameterized` node criterion on
node 0 (its result is discarded by `check_thing`, which returns `None`,
i.e. falsy) with Python truthiness applied, over the path pattern. -/
def ctW : Nat → Nat → Bool :=
  fun n t => truthy (MFP.check_thing [(0, fun _ => false)] n t)

def crW : Nat × Nat → Nat × Nat → Bool :=
  fun ns ts => truthy (MFP.check_relation [] ns ts)

/-- Witness for C6 (Scenario D): with a node criterion rejecting node 0's
image, `parse` tries both symmetry transforms of the identity self-match
of P3 and returns `None`. -/
theorem parse_returns_first_passing_witness :
    MatchFilter.parse gP3 ctW crW idP3 = .ok none ∧
    ((gP3.symmetries.map Prod.snd).filterMap (OneToOne.mul idP3)).length = 2 := by
  constructor
  · have h := parse_returns_first_passing gP3 ctW crW idP3 (by decide)
    rw [h]
    rfl
  · rfl

/-- Claim C8: the search prunes, without raising, any branch whose degree check
fails — exact equality required when `allow_more` is false, no more
pattern neighbours than target neighbours when it is true — and any branch
whose seed relation conflicts with the partial match: the result is
`ok []`, an empty yield. -/
theorem yield_matches_prunes_quietly (fuel : Nat)
    (neighbours : List (Nat × List Nat)) (cycles : List (List Nat))
    (allow_more no_duplicates : Bool) (node thing : Nat)
    (thing_neighbours : List (Nat × List Nat)) (m : OneToOne)
    (nn tn : List Nat)
    (hn : lookup? neighbours node = some nn)
    (ht : lookup? thing_neighbours thing = some tn)
    (hbad : (allow_more = true ∧ nn.length > tn.length) ∨
            (allow_more = false ∧ nn.length ≠ tn.length) ∨
            (m.add_relation node thing).1 = false) :
    yield_matches (fuel + 1) neighbours cycles allow_more no_duplicates
      node thing thing_neighbours m = .ok [] := by
  rw [yield_matches]
  rcases hbad with ⟨ha, hgt⟩ | ⟨ha, hne⟩ | hconf
  · subst ha
    simp [hn, ht, hgt]
  · subst ha
    simp [hn, ht, hne]
  · simp only [hn, ht]
    cases h1 : allow_more && decide (nn.length > tn.length) with
    | true => simp [h1]
    | false =>
        cases h2 : !allow_more && decide (nn.length ≠ tn.length) with
        | true => simp [h1, h2]
        | false =>
            rcases hadd : m.add_relation node thing with ⟨fst, m1⟩
            rw [hadd] at hconf
            dsimp only at hconf
            subst hconf
            simp [h1, h2, hadd]

/-- Witness for C8: seeding the P3 pattern at node 0 (degree 1) against
thing 1 (degree 2) with `allow_more = False` yields nothing, without an
error. -/
theorem yield_matches_prunes_quietly_witness :
    yield_matches 8 (init_neighbours p3pairs) [] false false 0 1
      (init_neighbours p3pairs) OneToOne.empty = .ok [] :=
  yield_matches_prunes_quietly 7 (init_neighbours p3pairs) [] false false 0 1
    (init_neighbours p3pairs) OneToOne.empty [1] [0, 2] rfl rfl
    (Or.inr (Or.inl ⟨rfl, by decide⟩))

end Molmod
